import Mathlib

/-!
Verification of the AfrIDE-demo translation-workflow application.

The development shallowly embeds the three front ends of the repository:

* `translation_app.py` / `app_st_dev.py` (the Streamlit apps, whose Step 2-6
  blocks are identical): state type `StState`, step functions `stStartStep`,
  `stRunTranslate`, `stArchive`, log helpers `logEvent` / `readLogs`, and
  the session helpers `isSessionExpired` / `gateRequiresLogin`.
* `app_gradio.py`: state type `GrState`, handlers `grStartProject`,
  `grRunStep4`, `grRunStep5`, `grManualEdit`, `grRunStep6`, `downloadDocx`,
  `grArchive`.

Pure helpers shared by the apps (`build_gold_standard_prompt`,
`create_word_document`, the prompt templates, Python `os.path` basename and
splitext) are translated directly.  Oracle (Gemini) calls are modelled by an
`Option String` argument: `none` is a raised/failed call, `some t` a response
with text `t`; Python truthiness of strings is modelled explicitly.
-/

/-- Python truthiness of an optional string: `None` and `""` are falsy. -/
def pyTruthyOpt (o : Option String) : Bool :=
  match o with
  | none => false
  | some t => t ≠ ""

/-- Python f-string interpolation of a value that may be `None`. -/
def pyStr (o : Option String) : String :=
  match o with
  | none => "None"
  | some t => t

/-- `os.path.basename` for POSIX paths: everything after the last slash. -/
def pyBasename (s : String) : String :=
  String.mk ((s.toList.reverse.takeWhile (fun c => c ≠ '/')).reverse)

/-- `os.path.splitext` applied to a basename, over character lists: split at
the last dot unless every character before it is a dot. -/
def pySplitextList (cs : List Char) : List Char × List Char :=
  let afterDot := cs.reverse.takeWhile (fun c => c ≠ '.')
  if afterDot.length = cs.length then (cs, [])
  else
    let stemLen := cs.length - afterDot.length - 1
    if (cs.take stemLen).all (fun c => c = '.') then (cs, [])
    else (cs.take stemLen, cs.drop stemLen)

/-- `os.path.splitext` on a basename string. -/
def pySplitext (s : String) : String × String :=
  let p := pySplitextList s.toList
  (String.mk p.1, String.mk p.2)

/-- Python `str.split` at a single character, here newline: the segment
list, including empty segments (`""` splits to `[""]`). -/
def splitNl : List Char → List (List Char)
  | [] => [[]]
  | c :: cs =>
    if c = '\n' then [] :: splitNl cs
    else
      match splitNl cs with
      | [] => [[c]]
      | h :: t => (c :: h) :: t

/-- Python `text.split("\n")` on strings. -/
def pySplitLines (t : String) : List String :=
  (splitNl t.toList).map String.mk

/-- `create_word_document` from `translation_app.py` (and `app_st_dev.py`):
the document is its list of paragraphs, one per newline-split segment. -/
def createWordDocument (textContent : String) : List String :=
  pySplitLines textContent

/-- `create_word_document` from `app_gradio.py`: identical except the
paragraph loop is guarded by `if text_content:`. -/
def createWordDocumentGr (textContent : String) : List String :=
  if textContent ≠ "" then pySplitLines textContent else []

/-- The fixed header of the gold-standard few-shot block. -/
def goldHeader : String :=
  "\n\nHere are some 'gold standard' examples of English-to-Portuguese translations to guide your tone and terminology. Follow these examples closely:\n"

/-- One gold-standard example block, numbered `i`. -/
def goldBlock (i : Nat) (en pt : String) : String :=
  "\n--- Gold Standard Example " ++ toString i ++ " ---\n" ++
  "[English]:\n" ++ en ++ "\n" ++
  "[Portuguese]:\n" ++ pt ++ "\n" ++
  "--- End Example ---\n"

/-- The loop body of `build_gold_standard_prompt`: `i` is the 0-based
`enumerate` index, the block is emitted with number `i+1` whenever both
read results are truthy (non-`None`, non-empty). -/
def goldBlocks : Nat → List (Option String × Option String) → String
  | _, [] => ""
  | i, (e, p) :: rest =>
    (if pyTruthyOpt e && pyTruthyOpt p then
      goldBlock (i + 1) (e.getD "") (p.getD "")
    else "") ++ goldBlocks (i + 1) rest

/-- `build_gold_standard_prompt` (identical in all three files).  The two
file lists are given as their `read_file` results.  Returns the prompt and
whether the non-fatal length-mismatch warning fires. -/
def buildGoldStandardPrompt (enFiles ptFiles : List (Option String)) :
    String × Bool :=
  if enFiles.isEmpty || ptFiles.isEmpty then ("", false)
  else (goldHeader ++ goldBlocks 0 (enFiles.zip ptFiles),
        enFiles.length != ptFiles.length)

/-- Concatenation of a list of strings (spec-side helper). -/
def strConcat : List String → String
  | [] => ""
  | s :: rest => s ++ strConcat rest

/-- Gold-standard prompt as the claim words it: blocks carry 1-indexed
*consecutive* numbers over the kept (both-texts-truthy) pairs. -/
def specGoldPromptConsecutive (enFiles ptFiles : List (Option String)) :
    String :=
  if enFiles.isEmpty || ptFiles.isEmpty then ""
  else
    let kept := (enFiles.zip ptFiles).filter
      (fun ep => pyTruthyOpt ep.1 && pyTruthyOpt ep.2)
    goldHeader ++ strConcat ((kept.enum.map
      (fun iep => goldBlock (iep.1 + 1) (iep.2.1.getD "") (iep.2.2.getD ""))))

/-- Gold-standard prompt in spec vocabulary with the numbering the code
actually uses: each kept pair keeps its 1-based position among *all* zipped
pairs (skipped pairs leave gaps in the numbering). -/
def specGoldPromptPositional (enFiles ptFiles : List (Option String)) :
    String × Bool :=
  if enFiles.isEmpty || ptFiles.isEmpty then ("", false)
  else
    (goldHeader ++ strConcat
      ((((enFiles.zip ptFiles).enumFrom 1).filter
        (fun iep => pyTruthyOpt iep.2.1 && pyTruthyOpt iep.2.2)).map
        (fun iep => goldBlock iep.1 (iep.2.1.getD "") (iep.2.2.getD ""))),
     enFiles.length != ptFiles.length)

/-! ## Prompt templates (`app_gradio.py` `generate_step_*_prompt`) -/

/-- `generate_step_4_prompt`. -/
def generateStep4Prompt (srcLang tgtLang goldPrompt sourceText : String) :
    String :=
  "You are a professional " ++ srcLang ++ "-to-" ++ tgtLang ++
  " translator.\nTranslate the following text. Maintain a professional tone and ensure accuracy.\nPreserve paragraph breaks (indicated by newlines).\n"
  ++ goldPrompt ++ "\n---\nSource Text to Translate:\n" ++ sourceText ++
  "\n---\n" ++ tgtLang ++ " Translation:"

/-- `generate_step_5_prompt`. -/
def generateStep5Prompt
    (srcLang tgtLang goldPrompt sourceText translationText : String) :
    String :=
  "You are a professional editor. Review the following translation from " ++
  srcLang ++ " to " ++ tgtLang ++
  ".\nCompare it against the source text for accuracy, terminology, and tone.\nCorrect any stylistic or grammatical issues to improve fluency. Preserve paragraph breaks.\n"
  ++ goldPrompt ++ "\n---\nSource Text:\n" ++ sourceText ++
  "\n---\nInitial Translation to Review:\n" ++ translationText ++
  "\n---\nProvide only the final, improved " ++ tgtLang ++ " translation:"

/-- `generate_step_6_prompt`. -/
def generateStep6Prompt (tgtLang textToProofread : String) : String :=
  "You are a meticulous proofreader. Perform a final check on the following "
  ++ tgtLang ++
  " text.\nCorrect only objective errors (typos, grammar, punctuation). Preserve paragraph breaks.\nDo NOT change the style or word choice unless it is grammatically incorrect.\n---\nText to Proofread:\n"
  ++ textToProofread ++ "\n---\nProvide only the final, proofread text:"

/-! ## Gradio app state and handlers (`app_gradio.py`) -/

/-- The `gr.State` variables of `app_gradio.py`, together with the language
dropdowns and the three editable prompt widgets that feed the handlers. -/
structure GrState where
  apiKey : Option String
  sourceText : Option String
  goldPrompt : String
  sourceFile : Option String
  t4 : Option String
  t5 : Option String
  t6 : Option String
  final : Option String
  srcLang : String
  tgtLang : String
  prompt4 : String
  prompt5 : String
  prompt6 : String
deriving DecidableEq

/-- The initial value of every Gradio state component, as declared in the
`gr.Blocks` layout. -/
def grInitial : GrState :=
  { apiKey := none, sourceText := none, goldPrompt := "", sourceFile := none
    t4 := none, t5 := none, t6 := none, final := none
    srcLang := "English", tgtLang := "Portuguese"
    prompt4 := "", prompt5 := "", prompt6 := "" }

/-- The state updates returned by a successful `start_project`. -/
structure GrStartUpdate where
  apiKey : Option String
  sourceText : String
  goldPrompt : String
  sourceFile : Option String
deriving DecidableEq

/-- `start_project` from `app_gradio.py`.  `envKey` is `os.getenv` of the
credential, `file` the uploaded source path, `readRes` the `read_file`
result (`none` when `read_file` raises, e.g. unsupported format), `gold` the
`build_gold_standard_prompt` result.  A raised `gr.Error` is `.error`. -/
def grStartProject (envKey file readRes : Option String)
    (gold : String × Bool) : Except String GrStartUpdate :=
  if ¬ pyTruthyOpt envKey then .error "Gemini API Key not found in .env file."
  else if file.isNone then .error "Please upload a source file to translate."
  else
    match readRes with
    | none => .error "Error reading file"
    | some t =>
      if t = "" then .error "Failed to read source file."
      else .ok { apiKey := envKey, sourceText := t, goldPrompt := gold.1
                 sourceFile := file }

/-- Gradio semantics of a `start_project` click: a raised `gr.Error` updates
no output component, a returned dictionary updates the state components. -/
def applyGrStart (s : GrState) (envKey file readRes : Option String)
    (gold : String × Bool) : GrState :=
  match grStartProject envKey file readRes gold with
  | .error _ => s
  | .ok u =>
    { s with apiKey := u.apiKey, sourceText := some u.sourceText
             goldPrompt := u.goldPrompt, sourceFile := u.sourceFile
             prompt4 := generateStep4Prompt s.srcLang s.tgtLang u.goldPrompt
               u.sourceText }

/-- `run_step_4`: `res` is the oracle outcome (`none` = raised error).  On a
truthy response it stores the draft, mirrors it into `final_text_state` and
regenerates the Step 5 prompt; otherwise no component is updated. -/
def grRunStep4 (s : GrState) (res : Option String) : GrState :=
  match res with
  | none => s
  | some t =>
    if t = "" then s
    else { s with t4 := some t, final := some t
                  prompt5 := generateStep5Prompt s.srcLang s.tgtLang
                    s.goldPrompt (pyStr s.sourceText) t }

/-- `run_step_5_ai`. -/
def grRunStep5 (s : GrState) (res : Option String) : GrState :=
  match res with
  | none => s
  | some t =>
    if t = "" then s
    else { s with t5 := some t, final := some t
                  prompt6 := generateStep6Prompt s.tgtLang t }

/-- `on_manual_edit`: live manual editing of the Step 5 text box; writes the
final text and regenerates the Step 6 prompt (it does not touch
`translation_step_5_state`). -/
def grManualEdit (s : GrState) (text : String) : GrState :=
  { s with final := some text
           prompt6 := generateStep6Prompt s.tgtLang text }

/-- `run_step_6`. -/
def grRunStep6 (s : GrState) (res : Option String) : GrState :=
  match res with
  | none => s
  | some t =>
    if t = "" then s
    else { s with t6 := some t, final := some t }

/-- `download_docx`: on truthy final text, the produced document (as its
paragraph list) and the constructed download filename. -/
def downloadDocx (finalText : Option String) (sourceFileName : String) :
    Option (List String × String) :=
  match finalText with
  | none => none
  | some t =>
    if t = "" then none
    else some (createWordDocumentGr t,
      "translated_" ++ (pySplitext (pyBasename sourceFileName)).1 ++ ".docx")

/-- `archive_project` from `app_gradio.py`: unconditionally resets every
state component (including `api_key_state`) to its initial value. -/
def grArchive (_ : GrState) : GrState := grInitial

/-! ## The mutation operations of the started workflow, and the final-text
invariant. -/

/-- One user action on a started Gradio project; each oracle-backed action
carries its oracle outcome. -/
inductive GrOp where
  | translate (res : Option String)
  | aiEdit (res : Option String)
  | manualEdit (text : String)
  | proofread (res : Option String)
deriving DecidableEq

/-- Dispatch one operation to its handler. -/
def applyGr (s : GrState) : GrOp → GrState
  | .translate res => grRunStep4 s res
  | .aiEdit res => grRunStep5 s res
  | .manualEdit text => grManualEdit s text
  | .proofread res => grRunStep6 s res

/-- Run a sequence of operations. -/
def applyGrOps (s : GrState) (ops : List GrOp) : GrState :=
  ops.foldl applyGr s

/-- The text written by an operation if it is a successful write: an oracle
action writes exactly when its response is truthy, a manual edit always
writes its text. -/
def opWrite : GrOp → Option String
  | .translate (some t) => if t = "" then none else some t
  | .translate none => none
  | .aiEdit (some t) => if t = "" then none else some t
  | .aiEdit none => none
  | .manualEdit t => some t
  | .proofread (some t) => if t = "" then none else some t
  | .proofread none => none

/-- Spec-side fold: the text of the most recent successful write in the
sequence, or the initial final text if no write occurred. -/
def lastSuccessfulWrite (init : Option String) (ops : List GrOp) :
    Option String :=
  ops.foldl (fun acc op =>
    match opWrite op with
    | some t => some t
    | none => acc) init

/-! ## Streamlit app state (`translation_app.py` / `app_st_dev.py`) -/

/-- The `st.session_state` fields of the Streamlit apps (project fields plus
the authentication fields that only `app_st_dev.py` uses; absent keys are
modelled by the initial values the apps assign them). -/
structure StState where
  projectStarted : Bool
  apiKey : Option String
  sourceText : Option String
  goldPrompt : String
  t4 : Option String
  t5 : Option String
  t6 : Option String
  final : Option String
  authenticated : Bool
  username : Option String
  lastActivity : Option Int
deriving DecidableEq

/-- Session state right after the initialization block of the Streamlit
apps (project not started, no artifacts). -/
def stInitial : StState :=
  { projectStarted := false, apiKey := none, sourceText := none
    goldPrompt := "", t4 := none, t5 := none, t6 := none, final := none
    authenticated := false, username := none, lastActivity := none }

/-- The Start-Project / Step 2 top-level block of the Streamlit apps
(`translation_app.py` lines 167-194): the credential and source-file checks
`st.stop()` before any mutation; then `project_started` is set; then, when
no source text is stored yet, Step 2 stores the `read_file` result and the
gold prompt before checking that the extraction was truthy (a falsy result
only reports an error and stops). -/
def stStartStep (s : StState) (hasFile : Bool) (readRes : Option String)
    (gold : String) : StState :=
  if ¬ pyTruthyOpt s.apiKey then s
  else if ¬ hasFile then s
  else
    let s1 := { s with projectStarted := true }
    if s1.sourceText.isNone then
      { s1 with sourceText := readRes, goldPrompt := gold }
    else s1

/-- The Step 4 top-level block of the Streamlit apps: the oracle is invoked
only under the guard `if not st.session_state.translation_step_4`; when a
draft already exists, clicking the button again performs no oracle call and
changes nothing. -/
def stRunTranslate (s : StState) (res : Option String) : StState :=
  if pyTruthyOpt s.t4 then s
  else
    match res with
    | none => s
    | some t =>
      if t = "" then s
      else { s with t4 := some t, final := some t }

/-- The Step 10 archive block of `app_st_dev.py` (lines 497-513): every
session key except `api_key`, `username`, `authenticated` and
`last_activity` is deleted, and `project_started` is reset to `False`. -/
def stArchive (s : StState) : StState :=
  { stInitial with apiKey := s.apiKey, username := s.username
                   authenticated := s.authenticated
                   lastActivity := s.lastActivity }

/-! ## Session gate (`app_st_dev.py`) -/

/-- `SESSION_TIMEOUT_MIN` in seconds. -/
def sessionTimeoutSeconds : Int := 15 * 60

/-- `is_session_expired`: `True` when no `last_activity` has been recorded,
otherwise whether the elapsed seconds exceed the timeout. -/
def isSessionExpired (lastActivity : Option Int) (now : Int) : Bool :=
  match lastActivity with
  | none => true
  | some t => now - t > sessionTimeoutSeconds

/-- The authentication gate at the top of `app_st_dev.py` (lines 262-269):
an authenticated but expired session is logged out, and any
non-authenticated session is sent to the login page. -/
def gateRequiresLogin (authenticated : Bool) (lastActivity : Option Int)
    (now : Int) : Bool :=
  if authenticated && isSessionExpired lastActivity now then true
  else !authenticated

/-! ## Event log (`app_st_dev.py` `log_event` / `read_logs`), embedded over
character lists so that the Python string operations can be reasoned about
directly. -/

/-- Python `str.strip()` whitespace characters. -/
def isPyWS (c : Char) : Bool :=
  c = ' ' || c = '\t' || c = '\n' || c = '\r' || c = '\x0b' || c = '\x0c'

/-- Drop matching characters from the end of a list. -/
def dropTrailing (p : Char → Bool) (l : List Char) : List Char :=
  List.rdropWhile p l

/-- Python `str.strip()`. -/
def pyStrip (l : List Char) : List Char :=
  dropTrailing isPyWS (l.dropWhile isPyWS)

/-- Python `str.strip(chars)` for a single character. -/
def pyStripChar (c : Char) (l : List Char) : List Char :=
  dropTrailing (fun x => x = c) (l.dropWhile (fun x => x = c))

/-- Split at the first occurrence of `sep`: `none` when `sep` does not
occur, otherwise the parts before and after it (Python
`s.split(sep, 1)` succeeds with two pieces exactly in the `some` case). -/
def findSplit (sep : List Char) : List Char → Option (List Char × List Char)
  | [] => if sep.isEmpty then some ([], []) else none
  | c :: cs =>
    if sep.isPrefixOf (c :: cs) then some ([], (c :: cs).drop sep.length)
    else (findSplit sep cs).map (fun q => (c :: q.1, q.2))

/-- A parsed entry of `read_logs`. -/
structure LogEntry where
  timestamp : List Char
  username : List Char
  event : List Char
deriving DecidableEq

/-- The per-line body of `read_logs`: strip the line, split once on `"] "`,
strip `'['` from the timestamp, split the rest once on `":"`, strip both
parts.  Any failed unpacking is skipped (`none`). -/
def parseLogLine (line : List Char) : Option LogEntry :=
  let l := pyStrip line
  match findSplit [']', ' '] l with
  | none => none
  | some (tsRaw, rest) =>
    match findSplit [':'] rest with
    | none => none
    | some (u, e) =>
      some { timestamp := pyStripChar '[' tsRaw
             username := pyStrip u, event := pyStrip e }

/-- `read_logs`: parse every line, skipping lines that fail to parse. -/
def readLogs (file : List Char) : List LogEntry :=
  (splitNl file).filterMap parseLogLine

/-- The line written by `log_event` (without its trailing newline). -/
def logLine (ts u e : List Char) : List Char :=
  '[' :: ts ++ ']' :: ' ' :: u ++ ':' :: ' ' :: e

/-- `log_event`: append the formatted, newline-terminated line to the
log file. -/
def logEvent (file ts u e : List Char) : List Char :=
  file ++ logLine ts u e ++ ['\n']

/-! ## Example states used by concrete counterexamples and witnesses. -/

/-- A Streamlit session in the Inquiry state with a configured credential. -/
def exStInquiry : StState := { stInitial with apiKey := some "key" }

/-- A prepared Streamlit project (credential configured, source extracted,
no draft yet). -/
def exStPrepared : StState :=
  { stInitial with apiKey := some "key", projectStarted := true
                   sourceText := some "src" }

/-- A Gradio state holding a loaded credential and finished artifacts. -/
def exGrLoaded : GrState :=
  { grInitial with apiKey := some "key-123", sourceText := some "src"
                   t4 := some "d", t5 := some "r", t6 := some "p"
                   final := some "p" }

/-- An oracle operation that failed (raised inside `call_gemini`). -/
def oracleFailure (op : GrOp) : Prop :=
  op = .translate none ∨ op = .aiEdit none ∨ op = .proofread none

/-! # Theorems -/

theorem goldBlocks_eq_positional (l : List (Option String × Option String))
    (n : Nat) :
    goldBlocks n l = strConcat (((l.enumFrom (n + 1)).filter
      (fun iep => pyTruthyOpt iep.2.1 && pyTruthyOpt iep.2.2)).map
      (fun iep => goldBlock iep.1 (iep.2.1.getD "") (iep.2.2.getD ""))) := by
  induction l generalizing n with
  | nil => rfl
  | cons ep rest ih =>
    obtain ⟨e, p⟩ := ep
    by_cases h : (pyTruthyOpt e && pyTruthyOpt p) = true
    · simp [goldBlocks, List.enumFrom, h, strConcat, ih (n + 1)]
    · simp [goldBlocks, List.enumFrom, h, strConcat, ih (n + 1)]

theorem applyGr_final (s : GrState) (op : GrOp) :
    (applyGr s op).final =
      (match opWrite op with
       | some t => some t
       | none => s.final) := by
  cases op with
  | translate res =>
    cases res with
    | none => rfl
    | some t =>
      by_cases h : t = "" <;> simp [applyGr, grRunStep4, opWrite, h]
  | aiEdit res =>
    cases res with
    | none => rfl
    | some t =>
      by_cases h : t = "" <;> simp [applyGr, grRunStep5, opWrite, h]
  | manualEdit t => rfl
  | proofread res =>
    cases res with
    | none => rfl
    | some t =>
      by_cases h : t = "" <;> simp [applyGr, grRunStep6, opWrite, h]

/-- Claim C1: along any sequence of operations on a started project, the
final text always equals the text of the most recent successful write among
RunTranslate, RunEdit, ManualEdit and RunProofread (in mutation order), and
never a stale earlier artifact; if no write has succeeded it still holds the
initial final text. -/
theorem final_text_is_last_successful_write (s : GrState) (ops : List GrOp) :
    (applyGrOps s ops).final = lastSuccessfulWrite s.final ops := by
  induction ops generalizing s with
  | nil => rfl
  | cons op rest ih =>
    have h1 : applyGrOps s (op :: rest) = applyGrOps (applyGr s op) rest :=
      rfl
    have h2 : lastSuccessfulWrite s.final (op :: rest)
        = lastSuccessfulWrite
            (match opWrite op with
             | some t => some t
             | none => s.final) rest := rfl
    rw [h1, ih, h2, applyGr_final]

/-- Counterexample to claim C2 as stated: in the Streamlit apps a
`StartProject` whose extraction fails (unsupported format, `read_file`
returns `None`) still mutates the project: `project_started` flips to
`True` and the gold prompt is stored. -/
theorem c2_counterexample :
    stStartStep exStInquiry true none "gold" ≠ exStInquiry
    ∧ (stStartStep exStInquiry true none "gold").projectStarted = true
    ∧ exStInquiry.projectStarted = false
    ∧ (stStartStep exStInquiry true none "gold").goldPrompt = "gold" := by
  refine ⟨by decide, by decide, by decide, by decide⟩

/-- Claim C2 (amended): a failed Gradio `start_project` mutates nothing; in
the Streamlit apps the failures detected before mutation (missing
credential, missing source file) mutate nothing, but an extraction failure
still sets the project-started flag and stores the gold prompt and the
extraction result, leaving the other fields unchanged. -/
theorem c2_amended (g : GrState) (envKey file readRes : Option String)
    (gold : String × Bool) (e : String) (s1 s3 : StState)
    (readResS : Option String) (goldS goldS3 : String)
    (herr : grStartProject envKey file readRes gold = .error e)
    (h2 : pyTruthyOpt s1.apiKey = false)
    (h3 : pyTruthyOpt s3.apiKey = true)
    (h4 : s3.sourceText = none) :
    applyGrStart g envKey file readRes gold = g
    ∧ stStartStep s1 true readResS goldS = s1
    ∧ stStartStep s3 false readResS goldS3 = s3
    ∧ stStartStep s3 true readResS goldS3
      = { s3 with projectStarted := true, sourceText := readResS
                  goldPrompt := goldS3 } := by
  refine ⟨?_, ?_, ?_, ?_⟩
  · simp [applyGrStart, herr]
  · simp [stStartStep, h2]
  · simp [stStartStep, h3]
  · simp [stStartStep, h3, h4]

/-- Witness for `c2_amended` at concrete inputs. -/
theorem c2_witness :
    grStartProject none none none ("", false)
        = .error "Gemini API Key not found in .env file."
    ∧ applyGrStart grInitial none none none ("", false) = grInitial
    ∧ stStartStep stInitial true none "" = stInitial
    ∧ stStartStep exStInquiry false none "g" = exStInquiry
    ∧ stStartStep exStInquiry true none "g"
      = { exStInquiry with projectStarted := true, sourceText := none
                           goldPrompt := "g" } := by
  have h := c2_amended grInitial none none none ("", false)
    "Gemini API Key not found in .env file." stInitial exStInquiry none "" "g"
    rfl rfl rfl rfl
  exact ⟨rfl, h.1, h.2.1, h.2.2.1, h.2.2.2⟩

/-- Counterexample to claim C3 as stated: in the Streamlit apps the Step 4
block only calls the oracle under `if not translation_step_4`, so a second
invocation leaves the first result in place; the final text is the first
call's result, not the second call's. -/
theorem c3_counterexample :
    (stRunTranslate (stRunTranslate exStPrepared (some "a")) (some "b")).final
      = some "a"
    ∧ (some "a" : Option String) ≠ some "b" := by
  constructor
  · decide
  · decide

/-- Claim C3 (amended): the Gradio `run_step_4` replaces the draft entirely
and the final text equals the second oracle result; the Streamlit Step 4
block performs no oracle call once a draft exists, so a second invocation
keeps the draft and final text at the first result.  Neither implementation
concatenates. -/
theorem c3_amended (g : GrState) (s : StState) (t1 t2 : String)
    (h1 : t1 ≠ "") (h2 : t2 ≠ "") (h4 : s.t4 = none) :
    ((applyGr (applyGr g (.translate (some t1))) (.translate (some t2))).t4
        = some t2
      ∧ (applyGr (applyGr g (.translate (some t1)))
          (.translate (some t2))).final = some t2)
    ∧ ((stRunTranslate (stRunTranslate s (some t1)) (some t2)).t4 = some t1
      ∧ (stRunTranslate (stRunTranslate s (some t1)) (some t2)).final
        = some t1) := by
  refine ⟨⟨?_, ?_⟩, ?_, ?_⟩ <;>
    simp [applyGr, grRunStep4, stRunTranslate, pyTruthyOpt, h1, h2, h4]

/-- Witness for `c3_amended` at concrete inputs. -/
theorem c3_witness :
    ((applyGr (applyGr grInitial (.translate (some "a")))
        (.translate (some "b"))).t4 = some "b"
      ∧ (applyGr (applyGr grInitial (.translate (some "a")))
          (.translate (some "b"))).final = some "b")
    ∧ ((stRunTranslate (stRunTranslate exStPrepared (some "a"))
          (some "b")).t4 = some "a"
      ∧ (stRunTranslate (stRunTranslate exStPrepared (some "a"))
          (some "b")).final = some "a") :=
  c3_amended grInitial exStPrepared "a" "b" (by decide) (by decide) rfl

set_option maxRecDepth 4096 in
/-- Counterexample to claim C4 as stated: when the first pair is skipped
(empty English text) the single emitted block is numbered 2, not 1, so the
numbering is not consecutive over the emitted blocks. -/
theorem c4_counterexample :
    (buildGoldStandardPrompt [some "", some "a"] [some "x", some "y"]).1
      ≠ specGoldPromptConsecutive [some "", some "a"] [some "x", some "y"] := by
  decide

/-- Claim C4 (amended): `build_gold_standard_prompt` returns the empty
string when either list is empty; otherwise the fixed header followed by one
block per both-truthy pair among the first `min` pairs, each block numbered
by the pair's 1-based position among all zipped pairs (skipped pairs leave
gaps), with only a non-fatal warning when the lengths differ. -/
theorem c4_amended (enFiles ptFiles : List (Option String)) :
    buildGoldStandardPrompt enFiles ptFiles
      = specGoldPromptPositional enFiles ptFiles := by
  by_cases he : enFiles.isEmpty <;> by_cases hp : ptFiles.isEmpty <;>
    simp [buildGoldStandardPrompt, specGoldPromptPositional, he, hp,
      goldBlocks_eq_positional]

/-- Claim C5: for non-empty final text, the download handler produces a
document whose paragraph sequence is the newline split of the final text
(one paragraph per line, empty lines included) and names the file
`translated_` plus the source basename without extension plus `.docx`;
the Streamlit `create_word_document` splits identically. -/
theorem download_paragraphs_and_filename (x src : String) (h : x ≠ "") :
    downloadDocx (some x) src
      = some (pySplitLines x,
          "translated_" ++ (pySplitext (pyBasename src)).1 ++ ".docx")
    ∧ createWordDocument x = pySplitLines x := by
  constructor
  · simp [downloadDocx, createWordDocumentGr, h]
  · rfl

/-- Witness for `download_paragraphs_and_filename` at concrete inputs. -/
theorem c5_witness :
    downloadDocx (some "line1\n\nline2") "/tmp/report.v1.docx"
      = some (pySplitLines "line1\n\nline2",
          "translated_"
            ++ (pySplitext (pyBasename "/tmp/report.v1.docx")).1 ++ ".docx")
    ∧ createWordDocument "line1\n\nline2" = pySplitLines "line1\n\nline2" :=
  download_paragraphs_and_filename "line1\n\nline2" "/tmp/report.v1.docx"
    (by decide)

/-- Claim C6: a failed oracle call (raised timeout, network or auth error)
in RunTranslate, RunEdit or RunProofread leaves every piece of project
state exactly as it was, and re-invoking any operation afterwards behaves
as if the failed call never happened. -/
theorem c6_oracle_failure_preserves_state (s : GrState) (op op2 : GrOp)
    (h : oracleFailure op) :
    applyGr s op = s ∧ applyGr (applyGr s op) op2 = applyGr s op2 := by
  have h1 : applyGr s op = s := by
    rcases h with h | h | h <;> subst h <;> rfl
  exact ⟨h1, by rw [h1]⟩

/-- Witness for `c6_oracle_failure_preserves_state` at concrete inputs. -/
theorem c6_witness :
    applyGr exGrLoaded (.translate none) = exGrLoaded
    ∧ applyGr (applyGr exGrLoaded (.translate none)) (.translate (some "t"))
      = applyGr exGrLoaded (.translate (some "t")) :=
  c6_oracle_failure_preserves_state exGrLoaded (.translate none)
    (.translate (some "t")) (Or.inl rfl)

/-- Counterexample to claim C7 as stated: the Gradio `archive_project`
resets `api_key_state` to `None`, so the stored oracle credential is not
preserved. -/
theorem c7_counterexample :
    (grArchive exGrLoaded).apiKey ≠ exGrLoaded.apiKey := by decide

/-- Claim C7 (amended): archiving is unconditional and clears every text
artifact to its initial empty value; the Streamlit `app_st_dev` archive
preserves the credential, the authenticated identity and the activity
timestamp, while the Gradio archive also resets its stored credential to
`None`; a subsequent StartProject carries no residual
draft/reviewed/proofread artifacts. -/
theorem c7_amended (g : GrState) (s : StState)
    (envKey file readRes : Option String) (gold : String × Bool) :
    grArchive g = grInitial
    ∧ (stArchive s).apiKey = s.apiKey
    ∧ (stArchive s).username = s.username
    ∧ (stArchive s).authenticated = s.authenticated
    ∧ (stArchive s).projectStarted = false
    ∧ (stArchive s).sourceText = none
    ∧ (stArchive s).goldPrompt = ""
    ∧ (stArchive s).t4 = none ∧ (stArchive s).t5 = none
    ∧ (stArchive s).t6 = none ∧ (stArchive s).final = none
    ∧ (applyGrStart (grArchive g) envKey file readRes gold).t4 = none
    ∧ (applyGrStart (grArchive g) envKey file readRes gold).t5 = none
    ∧ (applyGrStart (grArchive g) envKey file readRes gold).t6 = none := by
  refine ⟨rfl, rfl, rfl, rfl, rfl, rfl, rfl, rfl, rfl, rfl, rfl, ?_, ?_, ?_⟩
    <;> · simp only [applyGrStart, grArchive]
          cases grStartProject envKey file readRes gold <;> rfl

/-- Counterexample to claim C9 as stated: on the empty string the Streamlit
writer produces one empty paragraph while the Gradio writer produces no
paragraph at all. -/
theorem c9_counterexample :
    createWordDocument "" ≠ createWordDocumentGr "" := by decide

/-- Claim C9 (amended): the two document writers agree on every non-empty
input; on the empty string they differ (one empty paragraph versus none). -/
theorem c9_amended (t : String) (h : t ≠ "") :
    createWordDocument t = createWordDocumentGr t := by
  simp [createWordDocument, createWordDocumentGr, h]

/-- Witness for `c9_amended` at a concrete input. -/
theorem c9_witness :
    createWordDocument "hello\nworld" = createWordDocumentGr "hello\nworld" :=
  c9_amended "hello\nworld" (by decide)

/-- Claim C10: with no recorded last-activity timestamp the session is
reported expired, and the authentication gate sends the user to the login
page regardless of the authenticated flag. -/
theorem c10_no_activity_forces_login (now : Int) (auth : Bool) :
    isSessionExpired none now = true
    ∧ gateRequiresLogin auth none now = true := by
  constructor
  · rfl
  · cases auth <;> rfl

/-! ## Lemmas for the event-log round trip (claim C8) -/


theorem splitNl_ne_nil (l : List Char) : splitNl l ≠ [] := by
  cases l with
  | nil => simp [splitNl]
  | cons c cs =>
    simp only [splitNl]
    by_cases h : c = '\n'
    · simp [h]
    · simp only [h, if_false]
      cases splitNl cs <;> simp

theorem splitNl_cons_nl (cs : List Char) :
    splitNl ('\n' :: cs) = [] :: splitNl cs := by
  simp [splitNl]

theorem splitNl_cons_ne (c : Char) (cs : List Char) (h : c ≠ '\n') :
    splitNl (c :: cs)
      = (c :: (splitNl cs).headI) :: (splitNl cs).tail := by
  simp only [splitNl, h, if_false]
  rcases hl : splitNl cs with _ | ⟨a, t⟩
  · exact absurd hl (splitNl_ne_nil cs)
  · simp

theorem splitNl_append_no_nl (L rest : List Char) (h : '\n' ∉ L) :
    splitNl (L ++ '\n' :: rest) = L :: splitNl rest := by
  induction L with
  | nil => simp [splitNl_cons_nl]
  | cons c cs ih =>
    have hc : c ≠ '\n' := fun hc => h (hc ▸ List.mem_cons_self c cs)
    have hcs : '\n' ∉ cs := fun hm => h (List.mem_cons_of_mem c hm)
    rw [List.cons_append, splitNl_cons_ne c _ hc, ih hcs]
    simp

theorem splitNl_two_of_endNl (l : List Char) (h : l.getLast? = some '\n') :
    2 ≤ (splitNl l).length := by
  induction l with
  | nil => simp at h
  | cons c cs ih =>
    cases cs with
    | nil =>
      simp only [List.getLast?_singleton, Option.some_inj] at h
      subst h
      simp [splitNl_cons_nl, splitNl]
    | cons c2 cs2 =>
      have h2 : (c2 :: cs2).getLast? = some '\n' := by
        rwa [List.getLast?_cons_cons] at h
      have ih2 := ih h2
      by_cases hc : c = '\n'
      · subst hc
        rw [splitNl_cons_nl]
        simp only [List.length_cons]
        omega
      · rw [splitNl_cons_ne c _ hc]
        simp only [List.length_cons, List.length_tail]
        omega

theorem splitNl_append_endNl (file rest : List Char)
    (h : file = [] ∨ file.getLast? = some '\n') :
    splitNl (file ++ rest) = (splitNl file).dropLast ++ splitNl rest := by
  induction file with
  | nil => simp [splitNl]
  | cons c cs ih =>
    rcases h with h | h
    · exact absurd h (by simp)
    cases cs with
    | nil =>
      have hc : c = '\n' := by simpa using h
      subst hc
      rw [List.cons_append, splitNl_cons_nl]
      simp [splitNl_cons_nl, splitNl]
    | cons c2 cs2 =>
      have h2 : (c2 :: cs2).getLast? = some '\n' := by
        rwa [List.getLast?_cons_cons] at h
      have ih2 := ih (Or.inr h2)
      by_cases hc : c = '\n'
      · subst hc
        rw [List.cons_append, splitNl_cons_nl, ih2, splitNl_cons_nl]
        rw [List.dropLast_cons_of_ne_nil (splitNl_ne_nil _)]
        simp
      · rw [List.cons_append, splitNl_cons_ne c _ hc, ih2,
          splitNl_cons_ne c _ hc]
        rcases hl : splitNl (c2 :: cs2) with _ | ⟨a, t⟩
        · exact absurd hl (splitNl_ne_nil _)
        have htne : t ≠ [] := by
          have hlen := splitNl_two_of_endNl (c2 :: cs2) h2
          rw [hl] at hlen
          simp only [List.length_cons] at hlen
          exact List.ne_nil_of_length_pos (by omega)
        simp [List.dropLast_cons_of_ne_nil htne]

theorem pyStrip_parts (l : List Char) (h : pyStrip l = l) :
    l.dropWhile isPyWS = l ∧ List.rdropWhile isPyWS l = l := by
  have hd : pyStrip l = List.rdropWhile isPyWS (l.dropWhile isPyWS) := rfl
  have hsuf : l.dropWhile isPyWS <:+ l := List.dropWhile_suffix isPyWS
  have hpre : List.rdropWhile isPyWS (l.dropWhile isPyWS)
      <+: l.dropWhile isPyWS := List.rdropWhile_prefix _ _
  have hlen1 : (l.dropWhile isPyWS).length ≤ l.length := hsuf.length_le
  have hlen2 : (pyStrip l).length ≤ (l.dropWhile isPyWS).length := by
    rw [hd]; exact hpre.length_le
  have hlen0 : (pyStrip l).length = l.length := by rw [h]
  have h1 : l.dropWhile isPyWS = l := hsuf.eq_of_length (by omega)
  refine ⟨h1, ?_⟩
  have h2 : pyStrip l = List.rdropWhile isPyWS l := by rw [hd, h1]
  rw [← h2, h]

theorem rdropWhile_append_fixed (p : Char → Bool) (A e : List Char)
    (he : List.rdropWhile p e = e) (hne : e ≠ []) :
    List.rdropWhile p (A ++ e) = A ++ e := by
  rw [List.rdropWhile_eq_self_iff] at he ⊢
  intro hl
  rw [List.getLast_append_of_ne_nil hne]
  exact he hne

theorem findSplit_sep_prefix (s1 : Char) (sr tail : List Char) :
    findSplit (s1 :: sr) ((s1 :: sr) ++ tail) = some ([], tail) := by
  rw [List.cons_append]
  simp only [findSplit]
  have hpre : (s1 :: sr).isPrefixOf (s1 :: (sr ++ tail)) = true := by
    rw [List.isPrefixOf_iff_prefix]
    exact ⟨tail, by simp⟩
  rw [if_pos hpre]
  congr 1
  have : s1 :: (sr ++ tail) = (s1 :: sr) ++ tail := by simp
  rw [this, List.length_cons, List.drop_left' (by simp)]

theorem findSplit_append_not_mem (s1 : Char) (sr pre suf : List Char)
    (h : s1 ∉ pre) :
    findSplit (s1 :: sr) (pre ++ suf)
      = (findSplit (s1 :: sr) suf).map (fun q => (pre ++ q.1, q.2)) := by
  induction pre with
  | nil =>
    simp only [List.nil_append]
    cases findSplit (s1 :: sr) suf <;> simp
  | cons c cs ih =>
    have hc : s1 ≠ c := fun hh => h (hh ▸ List.mem_cons_self c cs)
    have hcs : s1 ∉ cs := fun hm => h (List.mem_cons_of_mem c hm)
    rw [List.cons_append]
    simp only [findSplit]
    have hnp : (s1 :: sr).isPrefixOf (c :: (cs ++ suf)) = false := by
      simp only [List.isPrefixOf]
      have : (s1 == c) = false := by
        simp [hc]
      simp [this]
    rw [if_neg (by simp [hnp])]
    rw [ih hcs]
    cases findSplit (s1 :: sr) suf <;> simp

theorem pyStrip_space_cons (e : List Char) (he : pyStrip e = e) :
    pyStrip (' ' :: e) = e := by
  have hp := pyStrip_parts e he
  show List.rdropWhile isPyWS ((' ' :: e).dropWhile isPyWS) = e
  rw [List.dropWhile_cons, if_pos (by decide), hp.1]
  exact hp.2

theorem parseLogLine_logLine (ts u e : List Char)
    (hts : ']' ∉ ts) (hu1 : ':' ∉ u) (hu3 : pyStrip u = u)
    (he : pyStrip e = e) :
    parseLogLine (logLine ts u e)
      = some { timestamp := pyStripChar '[' ('[' :: ts)
               username := u, event := e } := by
  have hpre1 : ']' ∉ ('[' :: ts) := by
    intro hm
    rcases List.mem_cons.mp hm with h | h
    · exact absurd h (by decide)
    · exact hts h
  rcases eq_or_ne e [] with he0 | hene
  · subst he0
    have hstrip : pyStrip (logLine ts u [])
        = ('[' :: (ts ++ ']' :: ' ' :: u)) ++ [':'] := by
      have h1 : logLine ts u []
          = '[' :: (ts ++ ']' :: ' ' :: (u ++ [':', ' '])) := by
        simp [logLine]
      have h2 : '[' :: (ts ++ ']' :: ' ' :: (u ++ [':', ' ']))
          = (('[' :: (ts ++ ']' :: ' ' :: u)) ++ [':']) ++ [' '] := by
        simp
      show List.rdropWhile isPyWS ((logLine ts u []).dropWhile isPyWS) = _
      rw [h1, List.dropWhile_cons, if_neg (by decide), h2,
        List.rdropWhile_concat_pos isPyWS _ ' ' (by decide),
        List.rdropWhile_concat_neg isPyWS _ ':' (by decide)]
    have h3 : ('[' :: (ts ++ ']' :: ' ' :: u)) ++ [':']
        = ('[' :: ts) ++ ((']' :: [' ']) ++ (u ++ ([':'] ++ []))) := by
      simp
    have h5 : findSplit [':'] [':'] = some (([] : List Char), ([] : List Char)) := by
      decide
    simp only [parseLogLine, hstrip, h3,
      findSplit_append_not_mem ']' [' '] _ _ hpre1,
      findSplit_sep_prefix, Option.map_some', List.append_nil,
      findSplit_append_not_mem ':' [] u _ hu1, h5]
    rw [hu3]
    rfl
  · have hp := pyStrip_parts e he
    have hstrip : pyStrip (logLine ts u e)
        = ('[' :: (ts ++ ']' :: ' ' :: (u ++ [':', ' ']))) ++ e := by
      have h1 : logLine ts u e
          = '[' :: ((ts ++ ']' :: ' ' :: (u ++ [':', ' '])) ++ e) := by
        simp [logLine]
      have h2 : '[' :: ((ts ++ ']' :: ' ' :: (u ++ [':', ' '])) ++ e)
          = ('[' :: (ts ++ ']' :: ' ' :: (u ++ [':', ' ']))) ++ e := by
        simp
      show List.rdropWhile isPyWS ((logLine ts u e).dropWhile isPyWS) = _
      rw [h1, List.dropWhile_cons, if_neg (by decide), h2,
        rdropWhile_append_fixed isPyWS _ e hp.2 hene]
    have h3 : ('[' :: (ts ++ ']' :: ' ' :: (u ++ [':', ' ']))) ++ e
        = ('[' :: ts) ++ ((']' :: [' ']) ++ (u ++ ([':'] ++ (' ' :: e)))) := by
      simp
    simp only [parseLogLine, hstrip, h3,
      findSplit_append_not_mem ']' [' '] _ _ hpre1,
      findSplit_sep_prefix, Option.map_some', List.append_nil,
      findSplit_append_not_mem ':' [] u _ hu1]
    rw [hu3, pyStrip_space_cons e he]

/-- Claim C8: appending an entry with `log_event` to a log file (empty or
newline-terminated, as every `log_event` write leaves it) and parsing with
`read_logs` recovers, as the last parsed entry, exactly the logged username
and event description, for any username without newline, colon or closing
bracket that equals its own strip, and any newline-free stripped event. -/
theorem log_roundtrip (file ts u e : List Char)
    (hfile : file = [] ∨ file.getLast? = some '\n')
    (hts1 : '\n' ∉ ts) (hts2 : ']' ∉ ts)
    (hu0 : '\n' ∉ u) (hu1 : ':' ∉ u) (_hu2 : ']' ∉ u) (hu3 : pyStrip u = u)
    (he0 : '\n' ∉ e) (he : pyStrip e = e) :
    ((readLogs (logEvent file ts u e)).getLast?).map
        (fun en => (en.username, en.event)) = some (u, e) := by
  have hnl : '\n' ∉ logLine ts u e := by
    intro hm
    simp only [logLine, List.mem_cons, List.mem_append] at hm
    rcases hm with ((h | h) | h | h | h) | h | h | h <;>
      first
        | exact hts1 h
        | exact hu0 h
        | exact he0 h
        | exact absurd h (by decide)
  have hsplit : splitNl (logEvent file ts u e)
      = (splitNl file).dropLast ++ [logLine ts u e, []] := by
    unfold logEvent
    rw [show file ++ logLine ts u e ++ ['\n']
        = file ++ (logLine ts u e ++ ['\n']) from by simp,
      splitNl_append_endNl file _ hfile]
    congr 1
    rw [show logLine ts u e ++ ['\n'] = logLine ts u e ++ '\n' :: [] from rfl,
      splitNl_append_no_nl _ _ hnl]
    rfl
  have hparse := parseLogLine_logLine ts u e hts2 hu1 hu3 he
  have hlast : List.filterMap parseLogLine [logLine ts u e, []]
      = [{ timestamp := pyStripChar '[' ('[' :: ts)
           username := u, event := e }] := by
    simp [List.filterMap_cons, hparse]
    rfl
  unfold readLogs
  rw [hsplit, List.filterMap_append, hlast, List.getLast?_concat]
  rfl

/-- Witness for `log_roundtrip` at concrete inputs. -/
theorem c8_witness :
    ((readLogs (logEvent [] "2024-01-02 12:00:00".toList "alice".toList
        "Logged in".toList)).getLast?).map (fun en => (en.username, en.event))
      = some ("alice".toList, "Logged in".toList) :=
  log_roundtrip [] "2024-01-02 12:00:00".toList "alice".toList
    "Logged in".toList (Or.inl rfl) (by decide) (by decide) (by decide)
    (by decide) (by decide) (by decide) (by decide) (by decide)
